import Mathlib

/-!
Shallow embedding of the hospital-booking backend (Go) core:
the calendar availability engine (`internal/calendar/service.go`,
`internal/calendar/models.go`, `internal/calendar/repository.go`) and the
auth token lifecycle (`internal/auth/service.go`, `internal/auth/auth.go`,
`internal/auth/token.go`).

Modelling conventions:
* `time.Time` instants are modelled as plain `Int`, seconds on a single
  timeline (one time zone; the repo runs everything in one location, and
  `time.Date(y, m, d, h, 0, 0, 0, loc)` is the midnight of the instant's day
  plus `3600*h` seconds).  `date.Truncate(24h)` / SQL `date_trunc('day', x)`
  is flooring to a multiple of 86400; `Truncate(time.Hour)` floors to a
  multiple of 3600.  The Go zero time is `0`.
* Database relations are lists of rows; the SQL queries of the repository
  layer become list filters, and the row-scanning loops that skip rows with
  `id <= 0` become `find?` with that guard.  Serial row ids assigned by the
  database are never read back by any query used here, so inserted rows get
  id `0`.
* UUIDs are `Nat`.  Fresh random UUIDs (`uuid.New()`) are passed in as an
  explicit argument.
* Errors: `apierrors.ValidationError(field, reason)` and
  `apierrors.APIError{detail, status}` become `ServiceError.validation` and
  `ServiceError.api`; `auth.UnauthorizedError` becomes
  `ServiceError.unauthorized`.
* Stateful service calls are state passing: an insert returns
  `Except ServiceError DB`; an error result leaves the store untouched.
* A Go `panic` (reachable via `uuid.MustParse`, whose documented behaviour
  in the google/uuid library is to panic when its argument is not a valid
  UUID string) is the `Outcome.panic` result.
-/

/-!
An instant (`time.Time`) is a plain `Int`: seconds on a single timeline.
-/

/-- Midnight of the instant's day: models `date.Truncate(24 * time.Hour)` and
SQL `date_trunc('day', x)`. -/
def dayTrunc (t : Int) : Int := t - t % 86400

/-- Flooring to the hour: models `t.Truncate(time.Hour)`. -/
def hourTrunc (t : Int) : Int := t - t % 3600

/-- Models `time.Date(date.Year(), date.Month(), date.Day(), hour, 0, 0, 0, loc)`:
the midnight of `date`'s day plus `hour` hours. -/
def atHour (date : Int) (hour : Int) : Int := dayTrunc date + 3600 * hour

/-- Models `t.IsZero()` (the Go zero time is instant `0`). -/
def isZero (t : Int) : Bool := t == 0

/-- Error values surfaced by the services (`apierrors` + `auth.UnauthorizedError`). -/
inductive ServiceError where
  | validation (field reason : String)
  | api (detail : String) (status : Nat)
  | unauthorized
deriving Repr, DecidableEq

/-- Error message constants of `internal/calendar/errors.go`. -/
def ErrDoctorNotFound : String := "doctor not found"

def ErrOnlyDoctorCanCreateBlocker : String := "only a doctor can create a blocker"

def ErrOnlyPatientCanCreateAppointment : String := "only a patient can create an appointment"

def ErrSlotNotAvailable : String := "chosen slot is not available"

def ErrOnlyDoctorCanCheckItsAppointments : String := "only a doctor can check its appointments"

/-- `auth.Role` is a string in the source. -/
abbrev Role := String

/-- `auth.User` row (`tb_user`). -/
structure User where
  id : Int
  uuid : Nat
  email : String
  password : String
  role : Role
deriving Repr, DecidableEq

/-- `calendar.Patient` row (`tb_patient`). -/
structure Patient where
  id : Int
  userId : Int
  uuid : Nat
  name : String
deriving Repr, DecidableEq

/-- `calendar.Doctor` row (`tb_doctor`). -/
structure Doctor where
  id : Int
  userId : Int
  uuid : Nat
  name : String
deriving Repr, DecidableEq

/-- `calendar.BlockPeriod` row (`tb_block_period`). -/
structure BlockPeriod where
  id : Int
  uuid : Nat
  doctorId : Int
  startDate : Int
  endDate : Int
  description : Option String
deriving Repr, DecidableEq

/-- `calendar.Appointment` row (`tb_appointment`). -/
structure Appointment where
  id : Int
  uuid : Nat
  doctorId : Int
  patientId : Int
  date : Int
deriving Repr, DecidableEq

/-- `calendar.AppointmentRequest`. -/
structure AppointmentRequest where
  hour : Int
  doctorUUID : Nat
  date : Int
deriving Repr, DecidableEq

/-- `calendar.Entry`: one derived hour slot. -/
structure Entry where
  hour : Int
  available : Bool
  patient : Option Patient
deriving Repr, DecidableEq

/-- The persistent store: the five relations the repositories query. -/
structure DB where
  users : List User
  doctors : List Doctor
  patients : List Patient
  blockers : List BlockPeriod
  appointments : List Appointment
deriving Repr, DecidableEq

namespace DB

/-- `calendar.Repository.FindDoctorByUUID`: rows with matching uuid, first one
whose id is positive (the scan loop skips rows with `ID <= 0`). -/
def findDoctorByUUID (db : DB) (u : Nat) : Option Doctor :=
  (db.doctors.filter (fun d => d.uuid == u)).find? (fun d => decide (0 < d.id))

/-- `calendar.Repository.FindDoctorByUserID`. -/
def findDoctorByUserID (db : DB) (userId : Int) : Option Doctor :=
  (db.doctors.filter (fun d => d.userId == userId)).find? (fun d => decide (0 < d.id))

/-- `calendar.Repository.FindPatientByID`. -/
def findPatientByID (db : DB) (i : Int) : Option Patient :=
  (db.patients.filter (fun p => p.id == i)).find? (fun p => decide (0 < p.id))

/-- `calendar.Repository.FindPatientByUserID`. -/
def findPatientByUserID (db : DB) (userId : Int) : Option Patient :=
  (db.patients.filter (fun p => p.userId == userId)).find? (fun p => decide (0 < p.id))

/-- `auth.Repository.FindUserByUUID`. -/
def findUserByUUID (db : DB) (u : Nat) : Option User :=
  (db.users.filter (fun x => x.uuid == u)).find? (fun x => decide (0 < x.id))

/-- `calendar.Repository.ListBlockers`: the query keeps rows with the doctor's
id whose day-truncated period contains the day-truncated query date
(`$2 BETWEEN date_trunc('day', start_date) AND date_trunc('day', end_date)`,
with `$2 = date.Truncate(24h)`). -/
def listBlockers (db : DB) (doctorId : Int) (date : Int) : List BlockPeriod :=
  db.blockers.filter (fun b =>
    b.doctorId == doctorId &&
    decide (dayTrunc b.startDate ≤ dayTrunc date) &&
    decide (dayTrunc date ≤ dayTrunc b.endDate))

/-- `calendar.Repository.ListAppointments`: rows with the doctor's id whose
date is on the day-truncated query date (`$2 = date_trunc('day', date)` with
`$2 = date.Truncate(24h)`). -/
def listAppointments (db : DB) (doctorId : Int) (date : Int) : List Appointment :=
  db.appointments.filter (fun a =>
    a.doctorId == doctorId && dayTrunc a.date == dayTrunc date)

end DB

/-- The working-hours window, `startWorkHour = 9` to `endWorkHour = 17`
inclusive: the hours visited by `for hour := 9; hour <= 17; hour++`. -/
def workHours : List Int := [9, 10, 11, 12, 13, 14, 15, 16, 17]

/-- `defaultService.hourIsBlocked`: the reference `time.Date(y, m, d, hour, 0, 0)`
is inside some listed blocker, inclusively at both ends
(`(ref.After(s) || ref.Equal(s)) && (ref.Before(e) || ref.Equal(e))`). -/
def hourIsBlocked (blockers : List BlockPeriod) (date : Int) (hour : Int) : Bool :=
  let reference := atHour date hour
  blockers.any (fun v =>
    (decide (v.startDate < reference) || reference == v.startDate) &&
    (decide (reference < v.endDate) || reference == v.endDate))

/-- `defaultService.hasAppointment`: some listed appointment sits at exactly
the reference instant. -/
def hasAppointment (appointments : List Appointment) (date : Int) (hour : Int) : Bool :=
  let reference := atHour date hour
  appointments.any (fun v => reference == v.date)

/-- `defaultService.getAppointmentPatient`: resolve the patient of the first
listed appointment at the reference instant (none when no appointment, and
possibly none when the patient row is missing). -/
def getAppointmentPatient (db : DB) (appointments : List Appointment)
    (date : Int) (hour : Int) : Option Patient :=
  let reference := atHour date hour
  match appointments.find? (fun v => reference == v.date) with
  | some v => db.findPatientByID v.patientId
  | none => none

/-- One iteration of the `GetDoctorCalendar` loop: the hour is skipped
(`continue`) when blocked or booked, otherwise an available entry with no
patient is produced. -/
def openSlotFor (blockers : List BlockPeriod) (appointments : List Appointment)
    (date : Int) (hour : Int) : Option Entry :=
  if hourIsBlocked blockers date hour then none
  else if hasAppointment appointments date hour then none
  else some { hour := hour, available := true, patient := none }

/-- The `GetDoctorCalendar` loop over the working hours. -/
def doctorCalendarEntries (blockers : List BlockPeriod)
    (appointments : List Appointment) (date : Int) : List Entry :=
  workHours.filterMap (openSlotFor blockers appointments date)

/-- `defaultService.GetDoctorCalendar` (patient-facing view). -/
def GetDoctorCalendar (db : DB) (doctorUUID : Nat) (date : Int) :
    Except ServiceError (List Entry) :=
  match db.findDoctorByUUID doctorUUID with
  | none => .error (.api ErrDoctorNotFound 404)
  | some doctor =>
    .ok (doctorCalendarEntries (db.listBlockers doctor.id date)
      (db.listAppointments doctor.id date) date)

/-- One iteration of the `GetAppointments` loop: every hour yields an entry;
a blocked hour is unavailable with no patient, a booked hour is unavailable
with the resolved patient, otherwise the hour is available. -/
def appointmentEntryFor (db : DB) (blockers : List BlockPeriod)
    (appointments : List Appointment) (date : Int) (hour : Int) : Entry :=
  if hourIsBlocked blockers date hour then
    { hour := hour, available := false, patient := none }
  else if hasAppointment appointments date hour then
    { hour := hour, available := false,
      patient := getAppointmentPatient db appointments date hour }
  else { hour := hour, available := true, patient := none }

/-- The `GetAppointments` loop over the working hours. -/
def appointmentEntries (db : DB) (blockers : List BlockPeriod)
    (appointments : List Appointment) (date : Int) : List Entry :=
  workHours.map (appointmentEntryFor db blockers appointments date)

/-- `defaultService.GetAppointments` (doctor-facing view). -/
def GetAppointments (db : DB) (user : User) (date : Int) :
    Except ServiceError (List Entry) :=
  match db.findDoctorByUserID user.id with
  | none => .error (.api ErrOnlyDoctorCanCheckItsAppointments 403)
  | some doctor =>
    .ok (appointmentEntries db (db.listBlockers doctor.id date)
      (db.listAppointments doctor.id date) date)

/-- `AppointmentRequest.Validate`: `hour` inside `[9,17]`, date non-zero. -/
def AppointmentRequest.Validate (a : AppointmentRequest) : Option ServiceError :=
  if !(decide (9 ≤ a.hour) && decide (a.hour ≤ 17)) then
    some (.validation "hour" "out of working hours")
  else if isZero a.date then some (.validation "date" "required")
  else none

/-- `BlockPeriod.Validate`. -/
def BlockPeriod.Validate (b : BlockPeriod) : Option ServiceError :=
  if isZero b.startDate then some (.validation "start_date" "required")
  else if isZero b.endDate then some (.validation "end_date" "required")
  else if decide (b.endDate < b.startDate) then
    some (.validation "end_date" "invalid period")
  else none

/-- `defaultService.slotIsAvailable`: availability flag of the first entry
with the requested hour, `false` when no entry has that hour. -/
def slotIsAvailable (entries : List Entry) (hour : Int) : Bool :=
  match entries.find? (fun v => v.hour == hour) with
  | some v => v.available
  | none => false

/-- `defaultService.InsertBlocker`.  `freshUUID` stands for `uuid.New()`;
the stored row keeps the request's dates truncated to the hour. -/
def InsertBlocker (db : DB) (user : User) (blockPeriod : BlockPeriod)
    (freshUUID : Nat) : Except ServiceError DB :=
  match db.findDoctorByUserID user.id with
  | none => .error (.api ErrOnlyDoctorCanCreateBlocker 403)
  | some doctor =>
    match blockPeriod.Validate with
    | some e => .error e
    | none =>
      .ok { db with blockers := db.blockers ++
        [{ id := 0, uuid := freshUUID, doctorId := doctor.id,
           startDate := hourTrunc blockPeriod.startDate,
           endDate := hourTrunc blockPeriod.endDate,
           description := blockPeriod.description }] }

/-- The subject claim of a JWT, as a string.  `uuid.Parse` either accepts the
string as a UUID (constructor `validUUID`, carrying the parsed value) or
rejects it (constructor `invalidUUID`, e.g. the string "not-a-uuid"). -/
inductive SubjectClaim where
  | validUUID (u : Nat)
  | invalidUUID (s : String)
deriving Repr, DecidableEq

/-- The claims of a syntactically well-formed JWT that the auth service
reads: expiration and subject. -/
structure JwtPayload where
  expiration : Int
  subject : SubjectClaim
deriving Repr, DecidableEq

/-- A raw token string: the empty string, a string that is not a JWT at all,
or a well-formed JWT with a payload and a signature (`sig = some k` when
signed with key pair `k`, `none` when the signature is absent or garbage). -/
inductive RawToken where
  | emptyStr
  | malformed
  | jwt (payload : JwtPayload) (sig : Option Nat)
deriving Repr, DecidableEq

/-- `auth.ParseToken` (`jwt.Parse` with `jwt.WithVerify`): succeeds exactly on
a well-formed JWT whose signature verifies under the given public key.  It
does not check expiration. -/
def ParseToken (token : RawToken) (publicKey : Nat) : Option JwtPayload :=
  match token with
  | .jwt p (some k) => if k == publicKey then some p else none
  | _ => none

/-- `jwt.ParseString` as called by `RefreshTokens`: parses without any
signature verification, so the signature component is ignored. -/
def parseStringNoVerify (token : RawToken) : Option JwtPayload :=
  match token with
  | .jwt p _ => some p
  | _ => none

/-- `auth.Tokens` (request body of the refresh endpoint).  Only the emptiness
of `access_token` is ever inspected, so it stays a plain string; the refresh
token is parsed, so it is a `RawToken` (`RawToken.emptyStr` is the empty
string). -/
structure Tokens where
  accessToken : String
  refreshToken : RawToken
  grantType : String
deriving Repr, DecidableEq

/-- `Tokens.Validate`. -/
def Tokens.Validate (t : Tokens) : Option ServiceError :=
  if t.accessToken == "" then some (.validation "access_token" "required")
  else if t.refreshToken == .emptyStr then
    some (.validation "refresh_token" "required")
  else if t.grantType == "" then some (.validation "grant_type" "required")
  else if !(t.grantType == "refresh_token") then
    some (.validation "grant_type" "invalid")
  else none

/-- Result of an auth service call: a value, a returned error, or a Go
`panic` (no recover in the call path). -/
inductive Outcome (α : Type) where
  | ok (val : α)
  | error (e : ServiceError)
  | panic
deriving Repr, DecidableEq

/-- `auth.GenerateTokens`: a fresh pair signed with the server key, subject =
the user's UUID, access expiry now + 5 minutes, refresh expiry now + 24 hours
(`AccessTokenExpiration`, `RefreshTokenExpiration` of `token.go`). -/
def GenerateTokens (privateKey : Nat) (now : Int) (user : User) :
    RawToken × RawToken :=
  (.jwt { expiration := now + 300, subject := .validUUID user.uuid }
     (some privateKey),
   .jwt { expiration := now + 86400, subject := .validUUID user.uuid }
     (some privateKey))

/-- `defaultService.ValidateToken` (input already stripped of the
`"Bearer "` marker, which only rewrites the string form).  Signature check,
then expiration (`!time.Now().Before(exp)` fails), then `uuid.MustParse` on
the subject (panics on an invalid UUID string), then user lookup. -/
def ValidateToken (db : DB) (now : Int) (publicKey : Nat)
    (token : RawToken) : Outcome User :=
  match ParseToken token publicKey with
  | none => .error .unauthorized
  | some p =>
    if decide (now < p.expiration) then
      match p.subject with
      | .invalidUUID _ => .panic
      | .validUUID u =>
        match db.findUserByUUID u with
        | none => .error .unauthorized
        | some user => .ok user
    else .error .unauthorized

/-- `defaultService.RefreshTokens`: field validation, then `jwt.ParseString`
(no signature verification), expiration check, `uuid.MustParse` on the
subject, user lookup, and a brand-new generated pair. -/
def RefreshTokens (db : DB) (now : Int) (privateKey : Nat)
    (tokens : Tokens) : Outcome (RawToken × RawToken) :=
  match tokens.Validate with
  | some e => .error e
  | none =>
    match parseStringNoVerify tokens.refreshToken with
    | none => .error .unauthorized
    | some p =>
      if decide (now < p.expiration) then
        match p.subject with
        | .invalidUUID _ => .panic
        | .validUUID u =>
          match db.findUserByUUID u with
          | none => .error .unauthorized
          | some user => .ok (GenerateTokens privateKey now user)
      else .error .unauthorized

/-- `defaultService.InsertAppointment`.  `freshUUID` stands for `uuid.New()`;
the stored appointment's date is `time.Date(y, m, d, request.Hour, 0, 0)`. -/
def InsertAppointment (db : DB) (user : User) (req : AppointmentRequest)
    (freshUUID : Nat) : Except ServiceError DB :=
  match req.Validate with
  | some e => .error e
  | none =>
    match db.findPatientByUserID user.id with
    | none => .error (.api ErrOnlyPatientCanCreateAppointment 403)
    | some patient =>
      match db.findDoctorByUUID req.doctorUUID with
      | none => .error (.api ErrDoctorNotFound 404)
      | some doctor =>
        match GetDoctorCalendar db req.doctorUUID req.date with
        | .error e => .error e
        | .ok entries =>
          if !slotIsAvailable entries req.hour then
            .error (.api ErrSlotNotAvailable 400)
          else
            .ok { db with appointments := db.appointments ++
              [{ id := 0, uuid := freshUUID, doctorId := doctor.id,
                 patientId := patient.id,
                 date := atHour req.date req.hour }] }

/-! Concrete fixtures used by witness theorems (one doctor, one patient, a
blocker 15:00-16:00 and an appointment at 10:00 on day 10, mirroring the
integration-test scenario of the repository). -/

def wDoctor : Doctor := { id := 1, userId := 5, uuid := 77, name := "House" }

def wPatient : Patient := { id := 2, userId := 6, uuid := 88, name := "John" }

def wUserDoctor : User :=
  { id := 5, uuid := 101, email := "doc@h.com", password := "", role := "DOCTOR" }

def wUserPatient : User :=
  { id := 6, uuid := 102, email := "pat@h.com", password := "", role := "PATIENT" }

/-- Midnight of an arbitrary concrete day. -/
def wDay : Int := 86400 * 10

def wBlocker : BlockPeriod :=
  { id := 1, uuid := 11, doctorId := 1, startDate := wDay + 3600 * 15,
    endDate := wDay + 3600 * 16, description := none }

def wAppointment : Appointment :=
  { id := 1, uuid := 12, doctorId := 1, patientId := 2, date := wDay + 3600 * 10 }

def wDB : DB :=
  { users := [wUserDoctor, wUserPatient], doctors := [wDoctor],
    patients := [wPatient], blockers := [wBlocker],
    appointments := [wAppointment] }

/-- An empty store. -/
def emptyDB : DB :=
  { users := [], doctors := [], patients := [], blockers := [],
    appointments := [] }

/-- The open slots of `wDB`'s doctor on `wDay`: hour 10 is booked, hours 15
and 16 are blocked. -/
def wOpenSlots : List Entry :=
  [{ hour := 9, available := true, patient := none },
   { hour := 11, available := true, patient := none },
   { hour := 12, available := true, patient := none },
   { hour := 13, available := true, patient := none },
   { hour := 14, available := true, patient := none },
   { hour := 17, available := true, patient := none }]

/-- `wDB` after a successful booking of hour 11 on `wDay` (fresh UUID 99). -/
def wDB2 : DB :=
  { wDB with appointments := wDB.appointments ++
      [{ id := 0, uuid := 99, doctorId := 1, patientId := 2,
         date := atHour wDay 11 }] }

/-! ## Helper lemmas -/

theorem helper_dayTrunc_atHour (d : Int) (h : Int) (h0 : 0 ≤ h) (h23 : h ≤ 23) :
    dayTrunc (atHour d h) = dayTrunc d := by
  unfold atHour dayTrunc
  omega

theorem helper_mem_workHours (h : Int) : h ∈ workHours ↔ 9 ≤ h ∧ h ≤ 17 := by
  simp [workHours]
  omega

/-! ## Claims -/

/-- C10: RefreshTokens panics instead of returning an error on a request that
passes field validation, carries a parseable and unexpired refresh token, but
whose subject claim is not a syntactically valid UUID string
(`uuid.MustParse` panics, nothing recovers). -/
theorem refreshTokens_panics_on_invalid_uuid_subject :
    RefreshTokens emptyDB 0 1
      { accessToken := "a",
        refreshToken :=
          .jwt { expiration := 100, subject := .invalidUUID "not-a-uuid" } none,
        grantType := "refresh_token" } = .panic := by
  decide

/-- C7: a token whose expiration is in the past always fails `ValidateToken`
with Unauthorized and yields no user, whatever its signature (including one
that verifies under the server key). -/
theorem validateToken_expired_unauthorized (db : DB) (now : Int) (key : Nat)
    (p : JwtPayload) (sig : Option Nat) (hexp : p.expiration < now) :
    ValidateToken db now key (.jwt p sig) = .error .unauthorized := by
  have hlt : ¬ now < p.expiration := by omega
  unfold ValidateToken ParseToken
  cases sig with
  | none => rfl
  | some k =>
    by_cases hk : k = key
    · subst hk
      simp [hlt]
    · simp [hk]

theorem validateToken_expired_unauthorized_witness :
    (0 : Int) < 5 ∧
      ValidateToken wDB 5 1
        (.jwt { expiration := 0, subject := .validUUID 101 } (some 1)) =
        .error .unauthorized :=
  ⟨by decide,
   validateToken_expired_unauthorized wDB 5 1
     { expiration := 0, subject := .validUUID 101 } (some 1) (by decide)⟩

/-- C8: an appointment request whose hour is outside `[9,17]` or whose date is
the zero time makes `InsertAppointment` fail with a ValidationError, for every
store, user and fresh UUID (validation runs before any other check), and no
state is produced. -/
theorem insertAppointment_invalid_request_fails (db : DB) (user : User)
    (req : AppointmentRequest) (freshUUID : Nat)
    (h : req.hour < 9 ∨ 17 < req.hour ∨ req.date = 0) :
    ∃ field reason, InsertAppointment db user req freshUUID =
      .error (.validation field reason) := by
  by_cases hr : 9 ≤ req.hour ∧ req.hour ≤ 17
  · have hz : req.date = 0 := by
      rcases h with h1 | h1 | h1
      · omega
      · omega
      · exact h1
    refine ⟨"date", "required", ?_⟩
    unfold InsertAppointment AppointmentRequest.Validate
    simp [hr.1, hr.2, isZero, hz]
  · refine ⟨"hour", "out of working hours", ?_⟩
    unfold InsertAppointment AppointmentRequest.Validate
    rcases not_and_or.mp hr with h1 | h1 <;> simp [h1]

theorem insertAppointment_invalid_request_fails_witness :
    ((8 : Int) < 9 ∨ (17 : Int) < 8 ∨ (wDay : Int) = 0) ∧
      ∃ field reason,
        InsertAppointment wDB wUserPatient
          { hour := 8, doctorUUID := 77, date := wDay } 99 =
          .error (.validation field reason) :=
  ⟨Or.inl (by decide),
   insertAppointment_invalid_request_fails wDB wUserPatient
     { hour := 8, doctorUUID := 77, date := wDay } 99 (Or.inl (by decide))⟩

/-- C6: `RefreshTokens` never checks the refresh token's signature: any
syntactically parseable refresh token that is not signed with the server's
key (unsigned or signed with any other key), with a future expiration and a
subject UUID resolving to a stored user, makes `RefreshTokens` succeed with
a brand-new pair, signed with the server key and carrying fresh expirations. -/
theorem refreshTokens_ignores_signature (db : DB) (now : Int) (key : Nat)
    (tokens : Tokens) (p : JwtPayload) (sig : Option Nat) (u : Nat) (user : User)
    (hacc : tokens.accessToken ≠ "")
    (hgrant : tokens.grantType = "refresh_token")
    (href : tokens.refreshToken = .jwt p sig)
    (hsig : sig ≠ some key)
    (hexp : now < p.expiration)
    (hsub : p.subject = .validUUID u)
    (huser : db.findUserByUUID u = some user) :
    RefreshTokens db now key tokens = .ok (GenerateTokens key now user) ∧
      ParseToken (GenerateTokens key now user).1 key =
        some { expiration := now + 300, subject := .validUUID user.uuid } ∧
      ParseToken (GenerateTokens key now user).2 key =
        some { expiration := now + 86400, subject := .validUUID user.uuid } := by
  refine ⟨?_, by simp [GenerateTokens, ParseToken], by simp [GenerateTokens, ParseToken]⟩
  unfold RefreshTokens Tokens.Validate
  rw [href]
  simp [hacc, hgrant, parseStringNoVerify, hexp, hsub, huser]

theorem refreshTokens_ignores_signature_witness :
    RefreshTokens wDB 0 1
      { accessToken := "a",
        refreshToken := .jwt { expiration := 100, subject := .validUUID 101 } none,
        grantType := "refresh_token" } = .ok (GenerateTokens 1 0 wUserDoctor) ∧
      ParseToken (GenerateTokens 1 0 wUserDoctor).1 1 =
        some { expiration := 0 + 300, subject := .validUUID wUserDoctor.uuid } ∧
      ParseToken (GenerateTokens 1 0 wUserDoctor).2 1 =
        some { expiration := 0 + 86400, subject := .validUUID wUserDoctor.uuid } :=
  refreshTokens_ignores_signature wDB 0 1
    { accessToken := "a",
      refreshToken := .jwt { expiration := 100, subject := .validUUID 101 } none,
      grantType := "refresh_token" }
    { expiration := 100, subject := .validUUID 101 } none 101 wUserDoctor
    (by decide) rfl rfl (by decide) (by decide) rfl (by decide)

/-- C9: for a requesting user resolving to a doctor, `InsertBlocker` fails
with a ValidationError naming the offending field when the period's start
date is zero, its end date is zero, or the end precedes the start (persisting
nothing), and on success the stored blocker keeps the request's dates
truncated to the hour. -/
theorem insertBlocker_validation_and_truncation (db : DB) (user : User)
    (bp : BlockPeriod) (freshUUID : Nat) (doc : Doctor)
    (hdoc : db.findDoctorByUserID user.id = some doc) :
    (bp.startDate = 0 →
      InsertBlocker db user bp freshUUID =
        .error (.validation "start_date" "required")) ∧
    (bp.startDate ≠ 0 → bp.endDate = 0 →
      InsertBlocker db user bp freshUUID =
        .error (.validation "end_date" "required")) ∧
    (bp.startDate ≠ 0 → bp.endDate ≠ 0 → bp.endDate < bp.startDate →
      InsertBlocker db user bp freshUUID =
        .error (.validation "end_date" "invalid period")) ∧
    (∀ db2, InsertBlocker db user bp freshUUID = .ok db2 →
      db2 = { db with blockers := db.blockers ++
        [{ id := 0, uuid := freshUUID, doctorId := doc.id,
           startDate := hourTrunc bp.startDate, endDate := hourTrunc bp.endDate,
           description := bp.description }] }) := by
  refine ⟨?_, ?_, ?_, ?_⟩
  · intro hs
    simp [InsertBlocker, hdoc, BlockPeriod.Validate, isZero, hs]
  · intro hs he
    simp [InsertBlocker, hdoc, BlockPeriod.Validate, isZero, hs, he]
  · intro hs he hlt
    simp [InsertBlocker, hdoc, BlockPeriod.Validate, isZero, hs, he, hlt]
  · intro db2 hok
    simp only [InsertBlocker, hdoc] at hok
    cases hv : bp.Validate with
    | some e =>
      rw [hv] at hok
      exact Except.noConfusion hok
    | none =>
      rw [hv] at hok
      exact (Except.ok.inj hok).symm

theorem insertBlocker_validation_and_truncation_witness :
    wDB.findDoctorByUserID wUserDoctor.id = some wDoctor ∧
      (({ id := 0, uuid := 0, doctorId := 0, startDate := 0, endDate := 86400,
          description := none } : BlockPeriod).startDate = 0 →
        InsertBlocker wDB wUserDoctor
          { id := 0, uuid := 0, doctorId := 0, startDate := 0, endDate := 86400,
            description := none } 7 =
          .error (.validation "start_date" "required")) :=
  ⟨by decide,
   (insertBlocker_validation_and_truncation wDB wUserDoctor
     { id := 0, uuid := 0, doctorId := 0, startDate := 0, endDate := 86400,
       description := none } 7 wDoctor (by decide)).1⟩

theorem helper_appointmentEntryFor_hour (db : DB) (B : List BlockPeriod)
    (A : List Appointment) (date hr : Int) :
    (appointmentEntryFor db B A date hr).hour = hr := by
  unfold appointmentEntryFor
  split_ifs <;> rfl

theorem helper_getAppointments_ok {db : DB} {user : User} {date : Int}
    {doc : Doctor} (hdoc : db.findDoctorByUserID user.id = some doc) :
    GetAppointments db user date =
      .ok (appointmentEntries db (db.listBlockers doc.id date)
        (db.listAppointments doc.id date) date) := by
  simp [GetAppointments, hdoc]

theorem helper_appointmentEntries_hours (db : DB) (B : List BlockPeriod)
    (A : List Appointment) (date : Int) :
    (appointmentEntries db B A date).map Entry.hour = workHours := by
  unfold appointmentEntries
  rw [List.map_map]
  have hcomp : Entry.hour ∘ appointmentEntryFor db B A date = fun hr => hr := by
    funext hr
    simp [Function.comp, helper_appointmentEntryFor_hour]
  rw [hcomp]
  exact List.map_id' workHours

theorem helper_openSlotFor_some {B : List BlockPeriod} {A : List Appointment}
    {date hr : Int} {e : Entry} (h : openSlotFor B A date hr = some e) :
    e.hour = hr ∧ e.available = true ∧ e.patient = none ∧
    hourIsBlocked B date hr = false ∧ hasAppointment A date hr = false := by
  unfold openSlotFor at h
  by_cases h1 : hourIsBlocked B date hr = true
  · rw [if_pos h1] at h
    exact absurd h (by simp)
  · rw [if_neg h1] at h
    by_cases h2 : hasAppointment A date hr = true
    · rw [if_pos h2] at h
      exact absurd h (by simp)
    · rw [if_neg h2] at h
      obtain rfl : e = { hour := hr, available := true, patient := none } :=
        (Option.some.inj h).symm
      exact ⟨rfl, rfl, rfl, by simpa using h1, by simpa using h2⟩

theorem helper_mem_doctorCalendarEntries {B : List BlockPeriod}
    {A : List Appointment} {date : Int} {e : Entry}
    (h : e ∈ doctorCalendarEntries B A date) :
    e.hour ∈ workHours ∧ e.available = true ∧ e.patient = none ∧
    hourIsBlocked B date e.hour = false ∧ hasAppointment A date e.hour = false := by
  unfold doctorCalendarEntries at h
  rw [List.mem_filterMap] at h
  obtain ⟨hr, hmem, hsome⟩ := h
  obtain ⟨h1, h2, h3, h4, h5⟩ := helper_openSlotFor_some hsome
  subst h1
  exact ⟨hmem, h2, h3, h4, h5⟩

/-- C2: for every existing doctor and every day, the doctor's day-schedule
computation (`GetAppointments`, which materialises one entry per worked hour)
returns exactly 9 entries with hours 9,...,17 in strictly ascending order and
no duplicates. -/
theorem getAppointments_nine_ascending_hours (db : DB) (user : User)
    (date : Int) (doc : Doctor)
    (hdoc : db.findDoctorByUserID user.id = some doc) :
    ∃ es, GetAppointments db user date = .ok es ∧
      es.map Entry.hour = workHours ∧ es.length = 9 ∧
      List.Pairwise (fun a b => a < b) (es.map Entry.hour) := by
  refine ⟨_, helper_getAppointments_ok hdoc, helper_appointmentEntries_hours .., ?_, ?_⟩
  · have hlen := congrArg List.length
      (helper_appointmentEntries_hours db (db.listBlockers doc.id date)
        (db.listAppointments doc.id date) date)
    simpa using hlen
  · rw [helper_appointmentEntries_hours]
    decide

theorem getAppointments_nine_ascending_hours_witness :
    wDB.findDoctorByUserID wUserDoctor.id = some wDoctor ∧
      ∃ es, GetAppointments wDB wUserDoctor wDay = .ok es ∧
        es.map Entry.hour = workHours ∧ es.length = 9 ∧
        List.Pairwise (fun a b => a < b) (es.map Entry.hour) :=
  ⟨by decide,
   getAppointments_nine_ascending_hours wDB wUserDoctor wDay wDoctor (by decide)⟩

/-- C4: every entry of the patient-facing view (`GetDoctorCalendar`) is
available with a null patient, and an hour that is blocked or booked does not
appear in the returned list at all. -/
theorem getDoctorCalendar_only_open_slots (db : DB) (duuid : Nat) (date : Int)
    (doc : Doctor) (es : List Entry)
    (hdoc : db.findDoctorByUUID duuid = some doc)
    (hres : GetDoctorCalendar db duuid date = .ok es) :
    (∀ e ∈ es, e.available = true ∧ e.patient = none) ∧
    (∀ hr : Int, hourIsBlocked (db.listBlockers doc.id date) date hr = true ∨
        hasAppointment (db.listAppointments doc.id date) date hr = true →
      ∀ e ∈ es, e.hour ≠ hr) := by
  have hes : es = doctorCalendarEntries (db.listBlockers doc.id date)
      (db.listAppointments doc.id date) date := by
    simp [GetDoctorCalendar, hdoc] at hres
    exact hres.symm
  subst hes
  constructor
  · intro e he
    obtain ⟨_, h2, h3, _, _⟩ := helper_mem_doctorCalendarEntries he
    exact ⟨h2, h3⟩
  · intro hr hbad e he heq
    obtain ⟨_, _, _, h4, h5⟩ := helper_mem_doctorCalendarEntries he
    rw [heq] at h4 h5
    rcases hbad with hb | hb
    · rw [hb] at h4
      exact Bool.noConfusion h4
    · rw [hb] at h5
      exact Bool.noConfusion h5

theorem getDoctorCalendar_only_open_slots_witness :
    wDB.findDoctorByUUID 77 = some wDoctor ∧
      GetDoctorCalendar wDB 77 wDay = .ok wOpenSlots ∧
      ((∀ e ∈ wOpenSlots, e.available = true ∧ e.patient = none) ∧
        (∀ hr : Int,
            hourIsBlocked (wDB.listBlockers wDoctor.id wDay) wDay hr = true ∨
              hasAppointment (wDB.listAppointments wDoctor.id wDay) wDay hr = true →
          ∀ e ∈ wOpenSlots, e.hour ≠ hr)) :=
  ⟨by decide, by rfl,
   getDoctorCalendar_only_open_slots wDB 77 wDay wDoctor wOpenSlots
     (by decide) (by rfl)⟩

theorem helper_hourIsBlocked_of_stored (db : DB) (docId day h : Int)
    (b : BlockPeriod) (hb : b ∈ db.blockers) (hid : b.doctorId = docId)
    (h9 : 9 ≤ h) (h17 : h ≤ 17)
    (hs : b.startDate ≤ atHour day h) (he : atHour day h ≤ b.endDate) :
    hourIsBlocked (db.listBlockers docId day) day h = true := by
  unfold atHour dayTrunc at hs he
  have hmem : b ∈ db.listBlockers docId day := by
    unfold DB.listBlockers
    rw [List.mem_filter]
    refine ⟨hb, ?_⟩
    simp [hid, dayTrunc]
    omega
  unfold hourIsBlocked
  rw [List.any_eq_true]
  refine ⟨b, hmem, ?_⟩
  simp [atHour, dayTrunc]
  omega

/-- C3: an hour of `[9,17]` whose reference timestamp lies inside a stored
BlockPeriod (inclusive at both endpoints) is never available: the
doctor-facing view returns it with `available = false` and the patient-facing
view omits it, whatever appointments exist. -/
theorem blocked_hour_never_available (db : DB) (day h : Int) (b : BlockPeriod)
    (hb : b ∈ db.blockers) (h9 : 9 ≤ h) (h17 : h ≤ 17)
    (hs : b.startDate ≤ atHour day h) (he : atHour day h ≤ b.endDate) :
    (∀ (user : User) (doc : Doctor) (es : List Entry),
      db.findDoctorByUserID user.id = some doc → doc.id = b.doctorId →
      GetAppointments db user day = .ok es →
      ∀ e ∈ es, e.hour = h → e.available = false) ∧
    (∀ (duuid : Nat) (doc : Doctor) (es : List Entry),
      db.findDoctorByUUID duuid = some doc → doc.id = b.doctorId →
      GetDoctorCalendar db duuid day = .ok es →
      ∀ e ∈ es, e.hour ≠ h) := by
  constructor
  · intro user doc es hdoc hid hres e hein heq
    have hblk : hourIsBlocked (db.listBlockers doc.id day) day h = true :=
      helper_hourIsBlocked_of_stored db doc.id day h b hb hid.symm h9 h17 hs he
    rw [helper_getAppointments_ok hdoc] at hres
    have hes := Except.ok.inj hres
    rw [← hes] at hein
    unfold appointmentEntries at hein
    rw [List.mem_map] at hein
    obtain ⟨hr, _, hfe⟩ := hein
    have hhr : hr = h := by
      rw [← heq, ← hfe, helper_appointmentEntryFor_hour]
    subst hhr
    rw [← hfe]
    unfold appointmentEntryFor
    rw [if_pos hblk]
  · intro duuid doc es hdoc hid hres e hein heq
    have hblk : hourIsBlocked (db.listBlockers doc.id day) day h = true :=
      helper_hourIsBlocked_of_stored db doc.id day h b hb hid.symm h9 h17 hs he
    have hes : es = doctorCalendarEntries (db.listBlockers doc.id day)
        (db.listAppointments doc.id day) day := by
      simp [GetDoctorCalendar, hdoc] at hres
      exact hres.symm
    subst hes
    obtain ⟨_, _, _, h4, _⟩ := helper_mem_doctorCalendarEntries hein
    rw [heq] at h4
    rw [hblk] at h4
    exact Bool.noConfusion h4

theorem blocked_hour_never_available_witness :
    (wBlocker ∈ wDB.blockers ∧ (9 : Int) ≤ 15 ∧ (15 : Int) ≤ 17 ∧
      wBlocker.startDate ≤ atHour wDay 15 ∧ atHour wDay 15 ≤ wBlocker.endDate) ∧
    ((∀ (user : User) (doc : Doctor) (es : List Entry),
        wDB.findDoctorByUserID user.id = some doc → doc.id = wBlocker.doctorId →
        GetAppointments wDB user wDay = .ok es →
        ∀ e ∈ es, e.hour = 15 → e.available = false) ∧
      (∀ (duuid : Nat) (doc : Doctor) (es : List Entry),
        wDB.findDoctorByUUID duuid = some doc → doc.id = wBlocker.doctorId →
        GetDoctorCalendar wDB duuid wDay = .ok es →
        ∀ e ∈ es, e.hour ≠ 15)) :=
  ⟨⟨by decide, by decide, by decide, by decide, by decide⟩,
   blocked_hour_never_available wDB wDay 15 wBlocker (by decide) (by decide)
     (by decide) (by decide) (by decide)⟩

/-- C5: an hour of `[9,17]` that is not blocked but carries a stored
appointment at exactly the reference timestamp yields, in the doctor-facing
view, an entry with `available = false` whose patient is the record resolved
from that appointment's patient id. -/
theorem booked_hour_shows_patient (db : DB) (user : User) (date : Int)
    (doc : Doctor) (es : List Entry) (h : Int) (a : Appointment)
    (hdoc : db.findDoctorByUserID user.id = some doc)
    (hres : GetAppointments db user date = .ok es)
    (h9 : 9 ≤ h) (h17 : h ≤ 17)
    (hnb : hourIsBlocked (db.listBlockers doc.id date) date h = false)
    (hfind : (db.listAppointments doc.id date).find?
        (fun v => atHour date h == v.date) = some a) :
    ∃ e ∈ es, e.hour = h ∧ e.available = false ∧
      e.patient = db.findPatientByID a.patientId := by
  rw [helper_getAppointments_ok hdoc] at hres
  have hes := Except.ok.inj hres
  have happ : hasAppointment (db.listAppointments doc.id date) date h = true := by
    have hpa := List.find?_some hfind
    unfold hasAppointment
    rw [List.any_eq_true]
    exact ⟨a, List.mem_of_find?_eq_some hfind, by simpa using hpa⟩
  refine ⟨appointmentEntryFor db (db.listBlockers doc.id date)
    (db.listAppointments doc.id date) date h, ?_, ?_⟩
  · rw [← hes]
    unfold appointmentEntries
    rw [List.mem_map]
    exact ⟨h, (helper_mem_workHours h).mpr ⟨h9, h17⟩, rfl⟩
  · unfold appointmentEntryFor
    rw [if_neg (by simp [hnb]), if_pos happ]
    refine ⟨rfl, rfl, ?_⟩
    simp only [getAppointmentPatient, hfind]

theorem booked_hour_shows_patient_witness :
    (wDB.findDoctorByUserID wUserDoctor.id = some wDoctor ∧
      (9 : Int) ≤ 10 ∧ (10 : Int) ≤ 17 ∧
      hourIsBlocked (wDB.listBlockers wDoctor.id wDay) wDay 10 = false ∧
      (wDB.listAppointments wDoctor.id wDay).find?
        (fun v => atHour wDay 10 == v.date) = some wAppointment) ∧
    ∃ e ∈ (appointmentEntries wDB (wDB.listBlockers wDoctor.id wDay)
        (wDB.listAppointments wDoctor.id wDay) wDay),
      e.hour = 10 ∧ e.available = false ∧
      e.patient = wDB.findPatientByID wAppointment.patientId :=
  ⟨⟨by decide, by decide, by decide, by decide, by decide⟩,
   booked_hour_shows_patient wDB wUserDoctor wDay wDoctor _ 10 wAppointment
     (by decide) (by rfl) (by decide) (by decide) (by decide) (by decide)⟩

theorem helper_validate_none_bounds {req : AppointmentRequest}
    (h : req.Validate = none) : 9 ≤ req.hour ∧ req.hour ≤ 17 ∧ req.date ≠ 0 := by
  unfold AppointmentRequest.Validate at h
  split_ifs at h with h1 h2
  simp at h1
  simp [isZero] at h2
  exact ⟨h1.1, h1.2, h2⟩

theorem helper_slotIsAvailable_eq_false {entries : List Entry} {h : Int}
    (hh : ∀ e ∈ entries, e.hour ≠ h) : slotIsAvailable entries h = false := by
  unfold slotIsAvailable
  have hfind : entries.find? (fun v => v.hour == h) = none := by
    rw [List.find?_eq_none]
    intro x hx
    simp [hh x hx]
  rw [hfind]

theorem helper_insertAppointment_ok {db : DB} {u : User}
    {req : AppointmentRequest} {f : Nat} {db2 : DB}
    (h : InsertAppointment db u req f = .ok db2) :
    req.Validate = none ∧
    ∃ patient doctor, db.findPatientByUserID u.id = some patient ∧
      db.findDoctorByUUID req.doctorUUID = some doctor ∧
      db2 = { db with appointments := db.appointments ++
        [{ id := 0, uuid := f, doctorId := doctor.id, patientId := patient.id,
           date := atHour req.date req.hour }] } := by
  cases hv : req.Validate with
  | some e =>
    simp only [InsertAppointment, hv] at h
    exact Except.noConfusion h
  | none =>
    cases hp : db.findPatientByUserID u.id with
    | none =>
      simp only [InsertAppointment, hv, hp] at h
      exact Except.noConfusion h
    | some patient =>
      cases hd : db.findDoctorByUUID req.doctorUUID with
      | none =>
        simp only [InsertAppointment, hv, hp, hd] at h
        exact Except.noConfusion h
      | some doctor =>
        simp only [InsertAppointment, hv, hp, hd, GetDoctorCalendar] at h
        split_ifs at h with hslot
        exact ⟨rfl, patient, doctor, rfl, rfl, (Except.ok.inj h).symm⟩

/-- C1: after a first `InsertAppointment` for a doctor, day and in-range hour
succeeds and persists the appointment, a second sequential
`InsertAppointment` by any patient for the same doctor, day and hour fails
with the "chosen slot is not available" error (HTTP 400), leaving the store
unchanged (an error result carries no new state). -/
theorem second_booking_rejected (db db2 : DB) (u1 u2 : User)
    (req req2 : AppointmentRequest) (f1 f2 : Nat) (p2 : Patient)
    (h1 : InsertAppointment db u1 req f1 = .ok db2)
    (hhour : req2.hour = req.hour) (huuid : req2.doctorUUID = req.doctorUUID)
    (hdate : req2.date = req.date)
    (hp2 : db2.findPatientByUserID u2.id = some p2) :
    InsertAppointment db2 u2 req2 f2 = .error (.api ErrSlotNotAvailable 400) := by
  obtain ⟨hval, patient, doctor, hp, hd, hdb2⟩ := helper_insertAppointment_ok h1
  obtain ⟨hb1, hb2, hb3⟩ := helper_validate_none_bounds hval
  have hd2 : db2.findDoctorByUUID req2.doctorUUID = some doctor := by
    rw [huuid, hdb2]
    exact hd
  have hval2 : req2.Validate = none := by
    unfold AppointmentRequest.Validate
    rw [hhour, hdate]
    simp [isZero, hb1, hb2, hb3]
  have happ : hasAppointment (db2.listAppointments doctor.id req2.date)
      req2.date req2.hour = true := by
    rw [hhour, hdate, hdb2]
    unfold DB.listAppointments hasAppointment
    rw [List.any_eq_true]
    refine ⟨{ id := 0, uuid := f1, doctorId := doctor.id,
              patientId := patient.id, date := atHour req.date req.hour },
      ?_, by simp⟩
    rw [List.mem_filter]
    constructor
    · simp
    · simp
      exact helper_dayTrunc_atHour req.date req.hour (by omega) (by omega)
  have hslot : slotIsAvailable (doctorCalendarEntries
      (db2.listBlockers doctor.id req2.date)
      (db2.listAppointments doctor.id req2.date) req2.date) req2.hour = false := by
    apply helper_slotIsAvailable_eq_false
    intro e he heq
    obtain ⟨_, _, _, _, h5⟩ := helper_mem_doctorCalendarEntries he
    rw [heq] at h5
    rw [happ] at h5
    exact Bool.noConfusion h5
  simp only [InsertAppointment, hval2, hp2, hd2, GetDoctorCalendar]
  simp [hslot]

theorem second_booking_rejected_witness :
    InsertAppointment wDB wUserPatient
      { hour := 11, doctorUUID := 77, date := wDay } 99 = .ok wDB2 ∧
    wDB2.findPatientByUserID wUserPatient.id = some wPatient ∧
    InsertAppointment wDB2 wUserPatient
      { hour := 11, doctorUUID := 77, date := wDay } 100 =
      .error (.api ErrSlotNotAvailable 400) :=
  ⟨by rfl, by decide,
   second_booking_rejected wDB wDB2 wUserPatient wUserPatient
     { hour := 11, doctorUUID := 77, date := wDay }
     { hour := 11, doctorUUID := 77, date := wDay } 99 100 wPatient
     (by rfl) rfl rfl rfl (by decide)⟩
